import Mathlib

/-!
Verification of the `sfp_leakix` SpiderFoot module (src/modules/sfp_leakix.py).

The module's core is embedded shallowly:
* `Json` models values decoded by Python's `json` module (`Json.null` doubles
  as Python `None`);
* `truthy`, `pyGet`, `pyIter`, `asStrs`, `pyJoin` model the Python dynamic
  operations the module performs on decoded values, including the exceptions
  they can raise (`PyErr`);
* `parseAPIResponse`, `queryHost` and `handle` (for `handleEvent`) mirror the
  module's methods; outbound transport calls and pacing sleeps are recorded as
  an explicit effect trace (`Eff`), and emitted SpiderFoot events are recorded
  as `Fact`s;
* `runAll` drives a session over a sequence of incoming events.
-/

namespace Leakix

/-- JSON values as decoded by the Python json module; `Json.null` doubles as
Python `None`. -/
inductive Json where
  | null : Json
  | bool : Bool → Json
  | num : Int → Json
  | str : String → Json
  | arr : List Json → Json
  | obj : List (String × Json) → Json

/-- Python exceptions that the module body can raise on wrong-shaped data. -/
inductive PyErr where
  | attributeError : PyErr
  | typeError : PyErr
  deriving DecidableEq

/-- Python truthiness of a decoded JSON value. -/
def truthy : Json → Bool
  | .null => false
  | .bool b => b
  | .num n => n != 0
  | .str s => s != ""
  | .arr xs => !xs.isEmpty
  | .obj kvs => !kvs.isEmpty

/-- First-match lookup in a decoded JSON object, defaulting to `null`: values
returned by Python `dict.get(key)`. -/
def jget : List (String × Json) → String → Json
  | [], _ => .null
  | (k0, v) :: rest, k => if k = k0 then v else jget rest k

/-- Python `x.get(key)`: only dicts have a `.get` attribute; any other value
raises AttributeError. -/
def pyGet : Json → String → Except PyErr Json
  | .obj kvs, k => .ok (jget kvs k)
  | _, _ => .error .attributeError

/-- Python iteration over a value: lists yield their elements, strings yield
one-character strings, dicts yield their keys; other values raise TypeError. -/
def pyIter : Json → Except PyErr (List Json)
  | .arr xs => .ok xs
  | .str s => .ok (s.data.map fun c => .str (String.singleton c))
  | .obj kvs => .ok (kvs.map fun kv => .str kv.1)
  | _ => .error .typeError

/-- Extract the strings from a list of values, raising TypeError at the first
non-str element, as Python `sep.join(xs)` does. -/
def asStrs : List Json → Except PyErr (List String)
  | [] => .ok []
  | .str s :: rest => (asStrs rest).map fun ss => s :: ss
  | _ :: _ => .error .typeError

/-- Python `sep.join(xs)`. -/
def pyJoin (sep : String) (xs : List Json) : Except PyErr String :=
  (asStrs xs).map fun ss => String.intercalate sep ss

/-- The typed facts (SpiderFootEvent kinds) the module emits, each carrying the
data the module passes to the event constructor. -/
inductive Fact where
  | rawData : Json → Fact
  | portOpen : String → Fact
  | webServerBanner : Json → Fact
  | geoInfo : String → Fact
  | softwareUsed : String → Fact
  | operatingSystem : Json → Fact
  | leakContent : Json → Fact

/-- Sequence two emission steps: the first step's facts are kept and its
exception, if any, aborts the second step (facts are notified to listeners as
they are produced, so an exception keeps the earlier ones). -/
def seqE (a b : List Fact × Option PyErr) : List Fact × Option PyErr :=
  match a with
  | (fs, some e) => (fs, some e)
  | (fs, none) => (fs ++ b.1, b.2)

/-- The `port` block of `handleEvent`: `service.get('port')`, and on a truthy
value, emit `TCP_PORT_OPEN` with `eventData + ':' + port` (string concatenation
raises TypeError on a non-str port): the block body on the looked-up value. -/
def portBlock (target : String) (port : Json) : List Fact × Option PyErr :=
  if truthy port then
    match port with
    | .str p => ([Fact.portOpen (target ++ ":" ++ p)], none)
    | _ => ([], some PyErr.typeError)
  else ([], none)

/-- The `port` block applied to `service.get('port')`. -/
def portSec (target : String) (service : Json) : List Fact × Option PyErr :=
  match pyGet service "port" with
  | .error e => ([], some e)
  | .ok port => portBlock target port

/-- The `headers` block of `handleEvent`: on truthy `service.get('headers')`,
look up `Server` and emit one `WEBSERVER_BANNER` per truthy entry, in order:
the block body on the looked-up value. -/
def headersBlock (headers : Json) : List Fact × Option PyErr :=
  if truthy headers then
    match pyGet headers "Server" with
    | .error e => ([], some e)
    | .ok servers =>
      if truthy servers then
        match pyIter servers with
        | .error e => ([], some e)
        | .ok ss => ((ss.filter truthy).map Fact.webServerBanner, none)
      else ([], none)
  else ([], none)

/-- The `headers` block applied to `service.get('headers')`. -/
def bannerSec (service : Json) : List Fact × Option PyErr :=
  match pyGet service "headers" with
  | .error e => ([], some e)
  | .ok headers => headersBlock headers

/-- The `geoip` block of `handleEvent`: on truthy `service.get('geoip')`, join
the truthy ones among city_name, region_name, country_name with a comma-space
separator and emit `GEOINFO` when the result is non-empty: the body of the
block, on the already looked-up geoip value. -/
def geoBlock (geoip : Json) : List Fact × Option PyErr :=
  if truthy geoip then
    match pyGet geoip "city_name" with
    | .error e => ([], some e)
    | .ok city =>
      match pyGet geoip "region_name" with
      | .error e => ([], some e)
      | .ok region =>
        match pyGet geoip "country_name" with
        | .error e => ([], some e)
        | .ok country =>
          match pyJoin ", " ((List.filter truthy [city, region, country])) with
          | .error e => ([], some e)
          | .ok location =>
            if location = "" then ([], none)
            else ([Fact.geoInfo location], none)
  else ([], none)

/-- The `geoip` block of `handleEvent`: look up `service.get('geoip')` and run
`geoBlock` on it. -/
def geoSec (service : Json) : List Fact × Option PyErr :=
  match pyGet service "geoip" with
  | .error e => ([], some e)
  | .ok geoip => geoBlock geoip

/-- The `software` block of `handleEvent`: on truthy `service.get('software')`,
join the truthy ones among name, version with a space and emit `SOFTWARE_USED`
when non-empty; then emit `OPERATING_SYSTEM` for a truthy `os`: the block
body on the looked-up value. -/
def softwareBlock (software : Json) : List Fact × Option PyErr :=
  if truthy software then
    match pyGet software "name" with
    | .error e => ([], some e)
    | .ok nm =>
      match pyGet software "version" with
      | .error e => ([], some e)
      | .ok ver =>
        match pyJoin " " ((List.filter truthy [nm, ver])) with
        | .error e => ([], some e)
        | .ok sv =>
          let fs := if sv = "" then [] else [Fact.softwareUsed sv]
          match pyGet software "os" with
          | .error e => (fs, some e)
          | .ok osv =>
            (fs ++ (if truthy osv then [Fact.operatingSystem osv] else []), none)
  else ([], none)

/-- The `software` block applied to `service.get('software')`. -/
def softSec (service : Json) : List Fact × Option PyErr :=
  match pyGet service "software" with
  | .error e => ([], some e)
  | .ok software => softwareBlock software

/-- Facts extracted from one entry of the `Services` list, in the code's
fixed order: port, headers.Server, geoip, software. -/
def extractService (target : String) (service : Json) : List Fact × Option PyErr :=
  seqE (portSec target service)
    (seqE (bannerSec service)
      (seqE (geoSec service) (softSec service)))

/-- The `Services` block of `handleEvent`: on truthy `data.get("Services")`,
iterate and extract each service in document order. -/
def servicesSec (target : String) (doc : Json) : List Fact × Option PyErr :=
  match pyGet doc "Services" with
  | .error e => ([], some e)
  | .ok services =>
    if truthy services then
      match pyIter services with
      | .error e => ([], some e)
      | .ok ss => ss.foldl (fun acc s => seqE acc (extractService target s)) ([], none)
    else ([], none)

/-- One entry of the `Leaks` list: emit `LEAKSITE_CONTENT` for a truthy
`leak.get('data')`. -/
def leakSec (leak : Json) : List Fact × Option PyErr :=
  match pyGet leak "data" with
  | .error e => ([], some e)
  | .ok d => if truthy d then ([Fact.leakContent d], none) else ([], none)

/-- The `Leaks` block of `handleEvent`. -/
def leaksSec (doc : Json) : List Fact × Option PyErr :=
  match pyGet doc "Leaks" with
  | .error e => ([], some e)
  | .ok leaks =>
    if truthy leaks then
      match pyIter leaks with
      | .error e => ([], some e)
      | .ok ls => ls.foldl (fun acc l => seqE acc (leakSec l)) ([], none)
    else ([], none)

/-- The fact-extraction part of `handleEvent`, run on a non-None decoded
payload: a `RAW_RIR_DATA` fact wrapping the whole document, then the
`Services` block, then the `Leaks` block; an exception aborts the rest but
keeps the facts already emitted. -/
def extract (target : String) (doc : Json) : List Fact × Option PyErr :=
  seqE ([Fact.rawData doc], none) (seqE (servicesSec target doc) (leaksSec doc))

/-- The string carried by a value that is a Python str, if any. -/
def toOpt : Json → Option String
  | .str s => some s
  | _ => none

/-- A value that is either absent (None) or a Python str: the shapes under
which a field behaves as an optional string. -/
def strOrNull : Json → Bool
  | .null => true
  | .str _ => true
  | _ => false

/-- Modelled from the spec: the GeoInfo location string is built "by joining,
in order, whichever of \x7bcity_name, region_name, country_name\x7d are
present and non-empty, separated by a comma and space"; `none` when the result
is empty, in which case no GeoInfo fact is emitted. -/
def geoInfoSpec (city region country : Option String) : Option String :=
  let parts := ([city, region, country].filterMap id).filter (fun s => s ≠ "")
  let joined := String.intercalate ", " parts
  if joined = "" then none else some joined

/-- A `Server` header value of the expected shape: absent or a list of
optional strings. -/
def wsServers : Json → Bool
  | .null => true
  | .arr xs => xs.all strOrNull
  | _ => false

/-- A `headers` field of the expected shape: absent or a dict whose `Server`
value has the expected shape. -/
def wsHeaders : Json → Bool
  | .null => true
  | .obj kvs => wsServers (jget kvs "Server")
  | _ => false

/-- A `geoip` field of the expected shape: absent or a dict with optional
string city_name, region_name, country_name. -/
def wsGeo : Json → Bool
  | .null => true
  | .obj kvs =>
    strOrNull (jget kvs "city_name") && strOrNull (jget kvs "region_name") &&
      strOrNull (jget kvs "country_name")
  | _ => false

/-- A `software` field of the expected shape: absent or a dict with optional
string name, version, os. -/
def wsSoftware : Json → Bool
  | .null => true
  | .obj kvs =>
    strOrNull (jget kvs "name") && strOrNull (jget kvs "version") &&
      strOrNull (jget kvs "os")
  | _ => false

/-- A `Services` entry of the expected shape: a dict whose optional fields
have the expected types. -/
def wellShapedService : Json → Bool
  | .obj kvs =>
    strOrNull (jget kvs "port") && wsHeaders (jget kvs "headers") &&
      wsGeo (jget kvs "geoip") && wsSoftware (jget kvs "software")
  | _ => false

/-- A `Leaks` entry of the expected shape: a dict. -/
def wellShapedLeak : Json → Bool
  | .obj _ => true
  | _ => false

/-- A `Services` or `Leaks` value of the expected shape: absent or a list
whose entries all pass the given check. -/
def wsList (entryOk : Json → Bool) : Json → Bool
  | .null => true
  | .arr xs => xs.all entryOk
  | _ => false

/-- A decoded payload of the expected shape: a dict whose optional `Services`
and `Leaks` values are lists of well-shaped entries. -/
def wellShaped : Json → Bool
  | .obj kvs =>
    wsList wellShapedService (jget kvs "Services") &&
      wsList wellShapedLeak (jget kvs "Leaks")
  | _ => false

/-- A decoded-or-not HTTP body. Python `json.loads` is stdlib, outside this
repository: it is modelled abstractly by `loads`, which succeeds exactly on
bodies carrying a decoded value. -/
inductive Body where
  | json : Json → Body
  | malformed : String → Body

/-- Python `json.loads` on a body, modelled abstractly (stdlib): `none` means
the call raised. -/
def loads : Body → Option Json
  | .json j => some j
  | .malformed _ => none

/-- The transport result dict returned by `sf.fetchUrl`: `code` and `content`,
with `content = none` for Python None. -/
structure Res where
  code : String
  content : Option Body

/-- Result of `parseAPIResponse`: the returned value (`Json.null` is Python
None) and whether the method set `self.errorState` to True. -/
structure PRes where
  data : Json
  setErr : Bool

/-- `sfp_leakix.parseAPIResponse`: 404 is a soft miss; 429 and any other
non-200 status set the error state; a missing or undecodable body yields
None without touching the error state. -/
def parseAPIResponse (res : Res) : PRes :=
  if res.code = "404" then ⟨.null, false⟩
  else if res.code = "429" then ⟨.null, true⟩
  else if res.code ≠ "200" then ⟨.null, true⟩
  else
    match res.content with
    | none => ⟨.null, false⟩
    | some body =>
      match loads body with
      | none => ⟨.null, false⟩
      | some data => ⟨data, false⟩

/-- Module options: `api_key`, `delay`, and the framework-supplied useragent. -/
structure Opts where
  api_key : String
  delay : Nat
  useragent : String
  deriving DecidableEq

/-- The request `queryHost` hands to `sf.fetchUrl`. -/
structure Req where
  url : String
  headers : List (String × String)
  timeout : Nat
  useragent : String
  deriving DecidableEq

/-- The request built by `queryHost` for a query string. -/
def mkReq (opts : Opts) (qry : String) : Req :=
  { url := "https://leakix.net/host/" ++ qry
    headers := [("Accept", "application/json"), ("api-key", opts.api_key)]
    timeout := 15
    useragent := opts.useragent }

/-- Observable side effects of the module: outbound fetches and pacing sleeps,
in order. -/
inductive Eff where
  | fetch : Req → Eff
  | sleep : Nat → Eff
  deriving DecidableEq

/-- Whether an effect is an outbound transport call. -/
def Eff.isFetch : Eff → Bool
  | .fetch _ => true
  | .sleep _ => false

/-- Number of outbound transport calls in an effect trace. -/
def countFetch (effs : List Eff) : Nat :=
  (effs.filter Eff.isFetch).length

/-- Result of `queryHost`: the parsed response and the effect trace. -/
structure QRes where
  pres : PRes
  effs : List Eff

/-- `sfp_leakix.queryHost`: one fetch, then an unconditional sleep of the
configured delay, then `parseAPIResponse` on the result. -/
def queryHost (opts : Opts) (transport : Req → Res) (qry : String) : QRes :=
  let req := mkReq opts qry
  let res := transport req
  { pres := parseAPIResponse res
    effs := [Eff.fetch req, Eff.sleep opts.delay] }

/-- Session state of the module instance: the dedup dict `self.results` (as
the list of its keys) and `self.errorState`. -/
structure State where
  results : List String
  errorState : Bool
  deriving DecidableEq

/-- An incoming SpiderFoot event: type, source module, data (the target). -/
structure Event where
  eventType : String
  srcModule : String
  data : String
  deriving DecidableEq

/-- Result of one `handleEvent` call: the new session state, the emitted
facts, the effect trace, and the Python exception, if one escaped. -/
structure HRes where
  state : State
  facts : List Fact
  effs : List Eff
  err : Option PyErr

/-- `Json.null` is Python None (`data is None`). -/
def Json.isNull : Json → Bool
  | .null => true
  | _ => false

/-- `sfp_leakix.handleEvent`: return at once on the error state, then on an
already-seen target; otherwise mark the target seen, and for an IP_ADDRESS
event run the gated query and extract facts from a non-None payload. -/
def handle (opts : Opts) (transport : Req → Res) (s : State) (ev : Event) : HRes :=
  if s.errorState then ⟨s, [], [], none⟩
  else if ev.data ∈ s.results then ⟨s, [], [], none⟩
  else
    let s1 : State := ⟨ev.data :: s.results, s.errorState⟩
    if ev.eventType = "IP_ADDRESS" then
      let q := queryHost opts transport ev.data
      let s2 : State := ⟨s1.results, s1.errorState || q.pres.setErr⟩
      if q.pres.data.isNull then ⟨s2, [], q.effs, none⟩
      else
        ⟨s2, (extract ev.data q.pres.data).1, q.effs, (extract ev.data q.pres.data).2⟩
    else ⟨s1, [], [], none⟩

/-- Result of a session run: final state, all facts emitted, all effects, in
order. -/
structure RRes where
  state : State
  facts : List Fact
  effs : List Eff

/-- Drive one session: deliver a sequence of events to `handle`, threading the
state and concatenating facts and effects. -/
def runAll (opts : Opts) (transport : Req → Res) : State → List Event → RRes
  | s, [] => ⟨s, [], []⟩
  | s, ev :: evs =>
    let r := handle opts transport s ev
    let rr := runAll opts transport r.state evs
    ⟨rr.state, r.facts ++ rr.facts, r.effs ++ rr.effs⟩

/-- The C1 payload: one service with port, Server header, geoip and software,
and one leak. -/
def doc1 : Json :=
  Json.obj
    [("Services", Json.arr
        [Json.obj
           [("port", Json.str "443"),
            ("headers", Json.obj [("Server", Json.arr [Json.str "nginx"])]),
            ("geoip", Json.obj [("city_name", Json.str "Paris"),
                                ("country_name", Json.str "France")]),
            ("software", Json.obj [("name", Json.str "nginx"),
                                   ("version", Json.str "1.18"),
                                   ("os", Json.str "Linux")])]]),
     ("Leaks", Json.arr [Json.obj [("data", Json.str "dump1")]])]

/-- A payload whose Services list holds a wrong-shaped (non-dict) entry. -/
def docBad : Json := Json.obj [("Services", Json.arr [Json.str "foo"])]

/-- Sample options for concrete runs. -/
def opts0 : Opts := ⟨"key", 1, "ua"⟩

/-- Sample incoming IP_ADDRESS event. -/
def ev0 : Event := ⟨"IP_ADDRESS", "sfp_dnsresolve", "1.2.3.4"⟩

/-- Fresh session state. -/
def s0 : State := ⟨[], false⟩

/-- A second sample IP_ADDRESS event with a different target. -/
def ev1 : Event := ⟨"IP_ADDRESS", "sfp_dnsresolve", "5.6.7.8"⟩

/-- Transport stub answering 200 with the C1 payload. -/
def tr200 : Req → Res := fun _ => ⟨"200", some (Body.json doc1)⟩

/-- Transport stub answering 404. -/
def tr404 : Req → Res := fun _ => ⟨"404", none⟩

/-- Transport stub answering 429. -/
def tr429 : Req → Res := fun _ => ⟨"429", none⟩

/-- Transport stub answering 200 with an undecodable body. -/
def trBad : Req → Res := fun _ => ⟨"200", some (Body.malformed "\x7bnot json")⟩

/-! ## Helper lemmas -/

/-- With the error state set, `handleEvent` returns at once, leaving the state
untouched and producing nothing. -/
theorem handle_errorState (opts : Opts) (transport : Req → Res) {s : State}
    (ev : Event) (h : s.errorState = true) :
    handle opts transport s ev = ⟨s, [], [], none⟩ := by
  simp [handle, h]

/-- A target already in `self.results` is ignored: no facts, no effects, state
untouched. -/
theorem handle_seen (opts : Opts) (transport : Req → Res) {s : State}
    {ev : Event} (h : ev.data ∈ s.results) :
    handle opts transport s ev = ⟨s, [], [], none⟩ := by
  by_cases hs : s.errorState = true
  · simp [handle, hs]
  · simp at hs
    simp [handle, hs, h]

/-- A fresh target is marked in `self.results` before anything else happens. -/
theorem handle_marks (opts : Opts) (transport : Req → Res) {s : State}
    {ev : Event} (h1 : s.errorState = false) (h2 : ev.data ∉ s.results) :
    (handle opts transport s ev).state.results = ev.data :: s.results := by
  simp only [handle, h1, if_false, Bool.false_eq_true]
  rw [if_neg h2]
  split
  · split <;> rfl
  · rfl

/-- One `handleEvent` call performs at most one outbound transport call. -/
theorem countFetch_handle (opts : Opts) (transport : Req → Res) (s : State)
    (ev : Event) : countFetch (handle opts transport s ev).effs ≤ 1 := by
  unfold handle
  split
  · simp [countFetch]
  · split
    · simp [countFetch]
    · split
      · simp only [queryHost]
        split <;> simp [countFetch, Eff.isFetch]
      · simp [countFetch]

/-- In the errored state a whole session run is a no-op. -/
theorem runAll_errored (opts : Opts) (transport : Req → Res) {s : State}
    (h : s.errorState = true) (evs : List Event) :
    runAll opts transport s evs = ⟨s, [], []⟩ := by
  induction evs with
  | nil => rfl
  | cons ev evs ih =>
    simp [runAll, handle_errorState opts transport ev h, ih]

/-! ## Claims -/

/-- Claim C1: for target "1.2.3.4" and the decoded payload `doc1`, extraction
emits exactly seven facts in this order: RawData of the whole document,
PortOpen "1.2.3.4:443", WebServerBanner "nginx", GeoInfo "Paris, France",
SoftwareUsed "nginx 1.18", OperatingSystem "Linux", LeakContent "dump1". -/
theorem C1_extract_order :
    extract "1.2.3.4" doc1 =
      ([Fact.rawData doc1,
        Fact.portOpen "1.2.3.4:443",
        Fact.webServerBanner (Json.str "nginx"),
        Fact.geoInfo "Paris, France",
        Fact.softwareUsed "nginx 1.18",
        Fact.operatingSystem (Json.str "Linux"),
        Fact.leakContent (Json.str "dump1")], none) := by rfl

/-- Claim C2: once the session error flag is true, every subsequent handle
call, for any target, issues zero transport calls and emits zero facts, and
the state (so also the flag) never changes: the Errored state is absorbing. -/
theorem C2_errored_absorbing (opts : Opts) (transport : Req → Res) (s : State)
    (evs : List Event) (h : s.errorState = true) :
    runAll opts transport s evs = ⟨s, [], []⟩ :=
  runAll_errored opts transport h evs

/-- Witness for C2 at a concrete errored state and one event. -/
theorem C2_errored_absorbing_witness :
    runAll opts0 tr200 ⟨[], true⟩ [ev0] = ⟨⟨[], true⟩, [], []⟩ :=
  C2_errored_absorbing opts0 tr200 ⟨[], true⟩ [ev0] rfl

/-- Claim C3: delivering the same target twice in one session makes at most
one transport call in the first handle call, and the second call emits zero
facts and performs zero effects (so zero transport calls). -/
theorem C3_second_call_noop (opts : Opts) (transport : Req → Res) (s : State)
    (ev ev2 : Event) (h : ev2.data = ev.data) :
    (handle opts transport (handle opts transport s ev).state ev2).facts = [] ∧
    (handle opts transport (handle opts transport s ev).state ev2).effs = [] ∧
    countFetch (handle opts transport s ev).effs ≤ 1 := by
  by_cases h1 : s.errorState = true
  · simp [handle_errorState opts transport ev h1,
      handle_errorState opts transport ev2 h1, countFetch]
  · by_cases h2 : ev.data ∈ s.results
    · have h2b : ev2.data ∈ s.results := h ▸ h2
      simp [handle_seen opts transport h2, handle_seen opts transport h2b, countFetch]
    · have h1f : s.errorState = false := by simpa using h1
      have hmem : ev2.data ∈ (handle opts transport s ev).state.results := by
        rw [handle_marks opts transport h1f h2, h]
        exact List.mem_cons_self _ _
      rw [handle_seen opts transport hmem]
      exact ⟨rfl, rfl, countFetch_handle opts transport s ev⟩

/-- Witness for C3: the same event delivered twice against a fresh state. -/
theorem C3_second_call_noop_witness :
    (handle opts0 tr200 (handle opts0 tr200 s0 ev0).state ev0).facts = [] ∧
    (handle opts0 tr200 (handle opts0 tr200 s0 ev0).state ev0).effs = [] ∧
    countFetch (handle opts0 tr200 s0 ev0).effs ≤ 1 :=
  C3_second_call_noop opts0 tr200 s0 ev0 ev0 rfl


/-- Claim C5: a rate-limited (429) transport result yields zero facts, sets the
session error flag, and suppresses facts for all later targets in the session. -/
theorem C5_rate_limited (opts : Opts) (transport : Req → Res) (s : State)
    (ev : Event) (evs : List Event)
    (h1 : s.errorState = false) (h2 : ev.data ∉ s.results)
    (h3 : ev.eventType = "IP_ADDRESS")
    (h4 : (transport (mkReq opts ev.data)).code = "429") :
    (handle opts transport s ev).facts = [] ∧
    (handle opts transport s ev).state.errorState = true ∧
    (runAll opts transport (handle opts transport s ev).state evs).facts = [] := by
  have hp : parseAPIResponse (transport (mkReq opts ev.data)) = ⟨Json.null, true⟩ := by
    simp [parseAPIResponse, h4]
  have hh : handle opts transport s ev =
      ⟨⟨ev.data :: s.results, true⟩, [],
        [Eff.fetch (mkReq opts ev.data), Eff.sleep opts.delay], none⟩ := by
    simp [handle, h1, h2, h3, queryHost, hp, Json.isNull]
  rw [hh]
  exact ⟨rfl, rfl, by rw [runAll_errored opts transport rfl evs]⟩

/-- Witness for C5: a 429 transport against a fresh state, one later target. -/
theorem C5_rate_limited_witness :
    (handle opts0 tr429 s0 ev0).facts = [] ∧
    (handle opts0 tr429 s0 ev0).state.errorState = true ∧
    (runAll opts0 tr429 (handle opts0 tr429 s0 ev0).state [ev1]).facts = [] :=
  C5_rate_limited opts0 tr429 s0 ev0 [ev1] rfl (by simp [s0]) rfl rfl

/-- Claim C6: a not-found (404) transport result yields zero facts and leaves
the session error flag false. -/
theorem C6_not_found (opts : Opts) (transport : Req → Res) (s : State)
    (ev : Event)
    (h1 : s.errorState = false) (h2 : ev.data ∉ s.results)
    (h3 : ev.eventType = "IP_ADDRESS")
    (h4 : (transport (mkReq opts ev.data)).code = "404") :
    (handle opts transport s ev).facts = [] ∧
    (handle opts transport s ev).state.errorState = false := by
  have hp : parseAPIResponse (transport (mkReq opts ev.data)) = ⟨Json.null, false⟩ := by
    simp [parseAPIResponse, h4]
  have hh : handle opts transport s ev =
      ⟨⟨ev.data :: s.results, false⟩, [],
        [Eff.fetch (mkReq opts ev.data), Eff.sleep opts.delay], none⟩ := by
    simp [handle, h1, h2, h3, queryHost, hp, Json.isNull]
  rw [hh]
  exact ⟨rfl, rfl⟩

/-- Witness for C6: a 404 transport against a fresh state. -/
theorem C6_not_found_witness :
    (handle opts0 tr404 s0 ev0).facts = [] ∧
    (handle opts0 tr404 s0 ev0).state.errorState = false :=
  C6_not_found opts0 tr404 s0 ev0 rfl (by simp [s0]) rfl rfl

/-- Claim C7: a 200 transport result whose body fails to decode yields zero
facts and leaves the session error flag false: one undecodable response never
puts the session into the errored state. -/
theorem C7_undecodable (opts : Opts) (transport : Req → Res) (s : State)
    (ev : Event) (raw : String)
    (h1 : s.errorState = false) (h2 : ev.data ∉ s.results)
    (h3 : ev.eventType = "IP_ADDRESS")
    (h4 : (transport (mkReq opts ev.data)).code = "200")
    (h5 : (transport (mkReq opts ev.data)).content = some (Body.malformed raw)) :
    (handle opts transport s ev).facts = [] ∧
    (handle opts transport s ev).state.errorState = false := by
  have hp : parseAPIResponse (transport (mkReq opts ev.data)) = ⟨Json.null, false⟩ := by
    simp [parseAPIResponse, h4, h5, loads]
  have hh : handle opts transport s ev =
      ⟨⟨ev.data :: s.results, false⟩, [],
        [Eff.fetch (mkReq opts ev.data), Eff.sleep opts.delay], none⟩ := by
    simp [handle, h1, h2, h3, queryHost, hp, Json.isNull]
  rw [hh]
  exact ⟨rfl, rfl⟩

/-- Witness for C7: a 200 answer with an undecodable body. -/
theorem C7_undecodable_witness :
    (handle opts0 trBad s0 ev0).facts = [] ∧
    (handle opts0 trBad s0 ev0).state.errorState = false :=
  C7_undecodable opts0 trBad s0 ev0 "\x7bnot json" rfl (by simp [s0]) rfl rfl rfl

/-- Claim C9: with the error flag down, an attempt is exactly one outbound
fetch followed by one sleep of the configured delay, whatever the transport
answers: `queryHost` always produces that trace, and a gated `handleEvent`
call on a fresh target produces exactly that trace. -/
theorem C9_pacing (opts : Opts) (transport : Req → Res) (s : State) (ev : Event)
    (h1 : s.errorState = false) (h2 : ev.data ∉ s.results)
    (h3 : ev.eventType = "IP_ADDRESS") :
    (queryHost opts transport ev.data).effs =
      [Eff.fetch (mkReq opts ev.data), Eff.sleep opts.delay] ∧
    (handle opts transport s ev).effs =
      [Eff.fetch (mkReq opts ev.data), Eff.sleep opts.delay] := by
  refine ⟨rfl, ?_⟩
  simp only [handle, h1, h2, h3]
  simp [queryHost]
  split <;> rfl

/-- Witness for C9: a fresh state, concrete options and transport. -/
theorem C9_pacing_witness :
    (queryHost opts0 tr200 ev0.data).effs =
      [Eff.fetch (mkReq opts0 ev0.data), Eff.sleep opts0.delay] ∧
    (handle opts0 tr200 s0 ev0).effs =
      [Eff.fetch (mkReq opts0 ev0.data), Eff.sleep opts0.delay] :=
  C9_pacing opts0 tr200 s0 ev0 rfl (by simp [s0]) rfl


/-- A `strOrNull` value is `null` or some `str`. -/
theorem strOrNull_cases {j : Json} (h : strOrNull j = true) :
    j = Json.null ∨ ∃ s, j = Json.str s := by
  cases j with
  | null => exact Or.inl rfl
  | str s => exact Or.inr ⟨s, rfl⟩
  | bool b => simp [strOrNull] at h
  | num n => simp [strOrNull] at h
  | arr xs => simp [strOrNull] at h
  | obj kvs => simp [strOrNull] at h

/-- On optional-string values, filtering by truthiness and extracting the
strings is collecting the present, non-empty ones. -/
theorem asStrs_filter_truthy (l : List Json) (h : ∀ j ∈ l, strOrNull j = true) :
    asStrs (l.filter truthy) =
      .ok ((l.filterMap toOpt).filter (fun s => s ≠ "")) := by
  induction l with
  | nil => rfl
  | cons x xs ih =>
    have hx := h x (List.mem_cons_self x xs)
    have hxs : ∀ j ∈ xs, strOrNull j = true := fun j hj => h j (List.mem_cons_of_mem x hj)
    rcases strOrNull_cases hx with hnull | ⟨t, ht⟩
    · subst hnull
      simp [truthy, toOpt, ih hxs]
    · subst ht
      by_cases he : t = ""
      · subst he
        simp [truthy, toOpt, ih hxs]
      · simp [truthy, toOpt, he, asStrs, ih hxs, Except.map]

/-- Claim C8: for every geoip object whose city_name, region_name and
country_name are optional strings, the geoip block emits exactly the fact the
spec describes: the comma-space join of the present non-empty fields, in
order, and no fact at all when that join is empty. -/
theorem C8_geoinfo_join (kvs : List (String × Json))
    (hc : strOrNull (jget kvs "city_name") = true)
    (hr : strOrNull (jget kvs "region_name") = true)
    (hco : strOrNull (jget kvs "country_name") = true) :
    geoBlock (Json.obj kvs) =
      ((geoInfoSpec (toOpt (jget kvs "city_name")) (toOpt (jget kvs "region_name"))
          (toOpt (jget kvs "country_name"))).elim [] (fun l => [Fact.geoInfo l]),
        none) := by
  by_cases hk : kvs = []
  · subst hk; rfl
  · have ht : truthy (Json.obj kvs) = true := by
      cases kvs with
      | nil => exact absurd rfl hk
      | cons a as => rfl
    have hj := asStrs_filter_truthy
        [jget kvs "city_name", jget kvs "region_name", jget kvs "country_name"]
        (by
          intro j hjm
          simp only [List.mem_cons, List.not_mem_nil, or_false] at hjm
          rcases hjm with h | h | h <;> subst h <;> assumption)
    have hparts : [toOpt (jget kvs "city_name"), toOpt (jget kvs "region_name"),
        toOpt (jget kvs "country_name")].filterMap id =
        [jget kvs "city_name", jget kvs "region_name",
          jget kvs "country_name"].filterMap toOpt := by
      rw [show [toOpt (jget kvs "city_name"), toOpt (jget kvs "region_name"),
          toOpt (jget kvs "country_name")] =
          List.map toOpt [jget kvs "city_name", jget kvs "region_name",
            jget kvs "country_name"] from rfl]
      rw [List.filterMap_map]
      rfl
    simp only [geoBlock, ht, if_true, pyGet, pyJoin, hj, Except.map, geoInfoSpec, hparts]
    split <;> rename_i hJ <;> simp [hJ]

/-- Witness for C8: geoip with only city_name "Paris" and country_name
"France" yields the single GeoInfo fact "Paris, France". -/
theorem C8_geoinfo_join_witness :
    geoBlock (Json.obj [("city_name", Json.str "Paris"),
        ("country_name", Json.str "France")]) =
      ([Fact.geoInfo "Paris, France"], none) := by
  have h := C8_geoinfo_join
    [("city_name", Json.str "Paris"), ("country_name", Json.str "France")] rfl rfl rfl
  simpa using h


/-- `seqE` keeps the second step's exception when the first step succeeds. -/
theorem seqE_snd (a b : List Fact × Option PyErr) (ha : a.2 = none) :
    (seqE a b).2 = b.2 := by
  obtain ⟨fs, e⟩ := a
  cases e with
  | none => rfl
  | some x => exact absurd ha (by simp)

/-- `seqE` of two successful steps concatenates their facts. -/
theorem seqE_eq (a b : List Fact × Option PyErr) (ha : a.2 = none)
    (hb : b.2 = none) : seqE a b = (a.1 ++ b.1, none) := by
  obtain ⟨fs, e⟩ := a
  obtain ⟨gs, e2⟩ := b
  cases e with
  | none =>
    cases e2 with
    | none => rfl
    | some x => exact absurd hb (by simp)
  | some x => exact absurd ha (by simp)

/-- A fold of successful emission steps succeeds. -/
theorem foldl_seqE_snd (f : Json → List Fact × Option PyErr) :
    ∀ (xs : List Json) (acc : List Fact × Option PyErr), acc.2 = none →
      (∀ x ∈ xs, (f x).2 = none) →
      (xs.foldl (fun a x => seqE a (f x)) acc).2 = none := by
  intro xs
  induction xs with
  | nil => intro acc hacc _; exact hacc
  | cons x xs ih =>
    intro acc hacc h
    simp only [List.foldl_cons]
    refine ih (seqE acc (f x)) ?_ (fun y hy => h y (List.mem_cons_of_mem x hy))
    rw [seqE_snd _ _ hacc]
    exact h x (List.mem_cons_self x xs)

/-- A well-shaped port value never raises in the port block. -/
theorem portBlock_ok (t : String) {port : Json} (h : strOrNull port = true) :
    (portBlock t port).2 = none := by
  rcases strOrNull_cases h with h0 | ⟨p, h0⟩ <;> subst h0
  · rfl
  · by_cases hp : p = "" <;> simp [portBlock, truthy, hp]

/-- A well-shaped headers value never raises in the headers block. -/
theorem headersBlock_ok {headers : Json} (h : wsHeaders headers = true) :
    (headersBlock headers).2 = none := by
  cases headers with
  | null => rfl
  | obj hk =>
    simp only [wsHeaders] at h
    simp only [headersBlock, pyGet]
    by_cases ht : truthy (Json.obj hk) = true
    · rw [if_pos ht]
      cases hs : jget hk "Server" with
      | null => rfl
      | arr xs => simp only [truthy, pyIter]; split <;> rfl
      | bool b => rw [hs] at h; simp [wsServers] at h
      | num n => rw [hs] at h; simp [wsServers] at h
      | str s1 => rw [hs] at h; simp [wsServers] at h
      | obj kvs2 => rw [hs] at h; simp [wsServers] at h
    · rw [if_neg ht]
  | bool b => simp [wsHeaders] at h
  | num n => simp [wsHeaders] at h
  | str s1 => simp [wsHeaders] at h
  | arr xs => simp [wsHeaders] at h

/-- A well-shaped geoip value never raises in the geoip block. -/
theorem geoBlock_ok {geoip : Json} (h : wsGeo geoip = true) :
    (geoBlock geoip).2 = none := by
  cases geoip with
  | null => rfl
  | obj gk =>
    simp only [wsGeo, Bool.and_eq_true] at h
    obtain ⟨⟨h1, h2⟩, h3⟩ := h
    have hj := asStrs_filter_truthy
        [jget gk "city_name", jget gk "region_name", jget gk "country_name"]
        (by
          intro j hjm
          simp only [List.mem_cons, List.not_mem_nil, or_false] at hjm
          rcases hjm with h | h | h <;> subst h <;> assumption)
    simp only [geoBlock, pyGet, pyJoin, hj, Except.map]
    split
    · split <;> rfl
    · rfl
  | bool b => simp [wsGeo] at h
  | num n => simp [wsGeo] at h
  | str s1 => simp [wsGeo] at h
  | arr xs => simp [wsGeo] at h

/-- A well-shaped software value never raises in the software block. -/
theorem softwareBlock_ok {software : Json} (h : wsSoftware software = true) :
    (softwareBlock software).2 = none := by
  cases software with
  | null => rfl
  | obj sk =>
    simp only [wsSoftware, Bool.and_eq_true] at h
    obtain ⟨⟨h1, h2⟩, h3⟩ := h
    have hj := asStrs_filter_truthy [jget sk "name", jget sk "version"]
        (by
          intro j hjm
          simp only [List.mem_cons, List.not_mem_nil, or_false] at hjm
          rcases hjm with h | h <;> subst h <;> assumption)
    simp only [softwareBlock, pyGet, pyJoin, hj, Except.map]
    split
    · rfl
    · rfl
  | bool b => simp [wsSoftware] at h
  | num n => simp [wsSoftware] at h
  | str s1 => simp [wsSoftware] at h
  | arr xs => simp [wsSoftware] at h

/-- A well-shaped Services entry never raises during its extraction. -/
theorem extractService_ok (t : String) {s : Json}
    (h : wellShapedService s = true) : (extractService t s).2 = none := by
  cases s with
  | obj kvs =>
    simp only [wellShapedService, Bool.and_eq_true] at h
    obtain ⟨⟨⟨hp, hh⟩, hg⟩, hs⟩ := h
    have e1 : (portSec t (Json.obj kvs)).2 = none := by
      simp only [portSec, pyGet]; exact portBlock_ok t hp
    have e2 : (bannerSec (Json.obj kvs)).2 = none := by
      simp only [bannerSec, pyGet]; exact headersBlock_ok hh
    have e3 : (geoSec (Json.obj kvs)).2 = none := by
      simp only [geoSec, pyGet]; exact geoBlock_ok hg
    have e4 : (softSec (Json.obj kvs)).2 = none := by
      simp only [softSec, pyGet]; exact softwareBlock_ok hs
    rw [extractService, seqE_snd _ _ e1, seqE_snd _ _ e2, seqE_snd _ _ e3]
    exact e4
  | null => simp [wellShapedService] at h
  | bool b => simp [wellShapedService] at h
  | num n => simp [wellShapedService] at h
  | str s1 => simp [wellShapedService] at h
  | arr xs => simp [wellShapedService] at h

/-- A well-shaped Leaks entry never raises during its extraction. -/
theorem leakSec_ok {l : Json} (h : wellShapedLeak l = true) :
    (leakSec l).2 = none := by
  cases l with
  | obj kvs =>
    simp only [leakSec, pyGet]
    split <;> rfl
  | null => simp [wellShapedLeak] at h
  | bool b => simp [wellShapedLeak] at h
  | num n => simp [wellShapedLeak] at h
  | str s1 => simp [wellShapedLeak] at h
  | arr xs => simp [wellShapedLeak] at h

/-- A well-shaped Services value never raises in the Services block. -/
theorem servicesSec_ok (t : String) {kvs : List (String × Json)}
    (h : wsList wellShapedService (jget kvs "Services") = true) :
    (servicesSec t (Json.obj kvs)).2 = none := by
  simp only [servicesSec, pyGet]
  cases hs : jget kvs "Services" with
  | null => rfl
  | arr xs =>
    rw [hs] at h
    simp only [wsList, List.all_eq_true] at h
    split
    · simp only [pyIter]
      exact foldl_seqE_snd _ xs ([], none) rfl fun x hx => extractService_ok t (h x hx)
    · rfl
  | bool b => rw [hs] at h; simp [wsList] at h
  | num n => rw [hs] at h; simp [wsList] at h
  | str s1 => rw [hs] at h; simp [wsList] at h
  | obj kvs2 => rw [hs] at h; simp [wsList] at h

/-- A well-shaped Leaks value never raises in the Leaks block. -/
theorem leaksSec_ok {kvs : List (String × Json)}
    (h : wsList wellShapedLeak (jget kvs "Leaks") = true) :
    (leaksSec (Json.obj kvs)).2 = none := by
  simp only [leaksSec, pyGet]
  cases hs : jget kvs "Leaks" with
  | null => rfl
  | arr xs =>
    rw [hs] at h
    simp only [wsList, List.all_eq_true] at h
    split
    · simp only [pyIter]
      exact foldl_seqE_snd _ xs ([], none) rfl fun x hx => leakSec_ok (h x hx)
    · rfl
  | bool b => rw [hs] at h; simp [wsList] at h
  | num n => rw [hs] at h; simp [wsList] at h
  | str s1 => rw [hs] at h; simp [wsList] at h
  | obj kvs2 => rw [hs] at h; simp [wsList] at h

/-- Counterexample to claim C4 as stated: on the payload `docBad`, whose
Services list holds a wrong-shaped (string) entry, extraction raises
AttributeError after emitting the RawData fact: the entry is not treated as
"all fields absent". -/
theorem C4_counterexample :
    extract "1.2.3.4" docBad = ([Fact.rawData docBad], some PyErr.attributeError) := by
  rfl

/-- Claim C4 (amended): for every decoded input of the expected shape, with
any subset of fields present, extraction completes without raising and in the
worst case produces only the RawData fact; a wrong-shaped Services or Leaks
entry instead raises. -/
theorem C4_wellshaped_no_raise (t : String) (doc : Json)
    (h : wellShaped doc = true) :
    ∃ rest, extract t doc = (Fact.rawData doc :: rest, none) := by
  cases doc with
  | obj kvs =>
    simp only [wellShaped, Bool.and_eq_true] at h
    obtain ⟨h1, h2⟩ := h
    have e1 := servicesSec_ok t h1
    have e2 := leaksSec_ok h2
    refine ⟨(servicesSec t (Json.obj kvs)).1 ++ (leaksSec (Json.obj kvs)).1, ?_⟩
    rw [extract, seqE_eq _ _ e1 e2, seqE_eq _ _ rfl rfl]
    simp
  | null => simp [wellShaped] at h
  | bool b => simp [wellShaped] at h
  | num n => simp [wellShaped] at h
  | str s1 => simp [wellShaped] at h
  | arr xs => simp [wellShaped] at h

/-- Witness for C4 (amended): the empty dict is well-shaped and extraction
produces exactly the RawData fact. -/
theorem C4_wellshaped_no_raise_witness :
    ∃ rest, extract "1.2.3.4" (Json.obj []) =
      (Fact.rawData (Json.obj []) :: rest, none) :=
  C4_wellshaped_no_raise "1.2.3.4" (Json.obj []) rfl


/-- Counterexample to claim C10 as stated: the payload with `Services: []` and
the payload without the key do not produce exactly the same emitted facts,
because the RawData fact wraps the whole document, which differs. -/
theorem C10_counterexample :
    extract "1.2.3.4" (Json.obj [("Services", Json.arr [])]) ≠
      extract "1.2.3.4" (Json.obj []) := by
  intro h
  have hA : extract "1.2.3.4" (Json.obj [("Services", Json.arr [])]) =
      ([Fact.rawData (Json.obj [("Services", Json.arr [])])], none) := rfl
  have hB : extract "1.2.3.4" (Json.obj []) =
      ([Fact.rawData (Json.obj [])], none) := rfl
  rw [hA, hB] at h
  simp at h

/-- Claim C10 (amended): an empty `Services` or `Leaks` list is skipped
exactly like an absent key — the emitted facts agree except for the initial
RawData fact, which wraps the whole (different) document, and the raised
exception, if any, agrees; and at the service level, an empty-object
`headers`, `geoip` or `software` field produces exactly the same facts as an
absent field. -/
theorem C10_empty_same_as_absent :
    (∀ t kvs, jget kvs "Services" = Json.null →
      (extract t (Json.obj (("Services", Json.arr []) :: kvs))).1.tail =
        (extract t (Json.obj kvs)).1.tail ∧
      (extract t (Json.obj (("Services", Json.arr []) :: kvs))).2 =
        (extract t (Json.obj kvs)).2) ∧
    (∀ t kvs, jget kvs "Leaks" = Json.null →
      (extract t (Json.obj (("Leaks", Json.arr []) :: kvs))).1.tail =
        (extract t (Json.obj kvs)).1.tail ∧
      (extract t (Json.obj (("Leaks", Json.arr []) :: kvs))).2 =
        (extract t (Json.obj kvs)).2) ∧
    (∀ t kvs, jget kvs "headers" = Json.null →
      extractService t (Json.obj (("headers", Json.obj []) :: kvs)) =
        extractService t (Json.obj kvs)) ∧
    (∀ t kvs, jget kvs "geoip" = Json.null →
      extractService t (Json.obj (("geoip", Json.obj []) :: kvs)) =
        extractService t (Json.obj kvs)) ∧
    (∀ t kvs, jget kvs "software" = Json.null →
      extractService t (Json.obj (("software", Json.obj []) :: kvs)) =
        extractService t (Json.obj kvs)) := by
  refine ⟨?_, ?_, ?_, ?_, ?_⟩
  · intro t kvs hserv
    have hS : servicesSec t (Json.obj (("Services", Json.arr []) :: kvs)) =
        ([], none) := by
      simp [servicesSec, pyGet, jget, truthy]
    have hS2 : servicesSec t (Json.obj kvs) = ([], none) := by
      simp [servicesSec, pyGet, hserv, truthy]
    have hL : leaksSec (Json.obj (("Services", Json.arr []) :: kvs)) =
        leaksSec (Json.obj kvs) := by
      simp [leaksSec, pyGet, jget]
    constructor <;> simp [extract, hS, hS2, hL, seqE]
  · intro t kvs hleaks
    have hS : servicesSec t (Json.obj (("Leaks", Json.arr []) :: kvs)) =
        servicesSec t (Json.obj kvs) := by
      simp [servicesSec, pyGet, jget]
    have hL1 : leaksSec (Json.obj (("Leaks", Json.arr []) :: kvs)) = ([], none) := by
      simp [leaksSec, pyGet, jget, truthy]
    have hL2 : leaksSec (Json.obj kvs) = ([], none) := by
      simp [leaksSec, pyGet, hleaks, truthy]
    constructor <;> simp [extract, hS, hL1, hL2, seqE]
  · intro t kvs hf
    have h1 : portSec t (Json.obj (("headers", Json.obj []) :: kvs)) =
        portSec t (Json.obj kvs) := by
      simp [portSec, pyGet, jget]
    have h2 : bannerSec (Json.obj (("headers", Json.obj []) :: kvs)) = ([], none) := by
      simp [bannerSec, pyGet, jget, headersBlock, truthy]
    have h2b : bannerSec (Json.obj kvs) = ([], none) := by
      simp [bannerSec, pyGet, hf, headersBlock, truthy]
    have h3 : geoSec (Json.obj (("headers", Json.obj []) :: kvs)) =
        geoSec (Json.obj kvs) := by
      simp [geoSec, pyGet, jget]
    have h4 : softSec (Json.obj (("headers", Json.obj []) :: kvs)) =
        softSec (Json.obj kvs) := by
      simp [softSec, pyGet, jget]
    simp [extractService, h1, h2, h2b, h3, h4]
  · intro t kvs hf
    have h1 : portSec t (Json.obj (("geoip", Json.obj []) :: kvs)) =
        portSec t (Json.obj kvs) := by
      simp [portSec, pyGet, jget]
    have h2 : bannerSec (Json.obj (("geoip", Json.obj []) :: kvs)) =
        bannerSec (Json.obj kvs) := by
      simp [bannerSec, pyGet, jget]
    have h3 : geoSec (Json.obj (("geoip", Json.obj []) :: kvs)) = ([], none) := by
      simp [geoSec, pyGet, jget, geoBlock, truthy]
    have h3b : geoSec (Json.obj kvs) = ([], none) := by
      simp [geoSec, pyGet, hf, geoBlock, truthy]
    have h4 : softSec (Json.obj (("geoip", Json.obj []) :: kvs)) =
        softSec (Json.obj kvs) := by
      simp [softSec, pyGet, jget]
    simp [extractService, h1, h2, h3, h3b, h4]
  · intro t kvs hf
    have h1 : portSec t (Json.obj (("software", Json.obj []) :: kvs)) =
        portSec t (Json.obj kvs) := by
      simp [portSec, pyGet, jget]
    have h2 : bannerSec (Json.obj (("software", Json.obj []) :: kvs)) =
        bannerSec (Json.obj kvs) := by
      simp [bannerSec, pyGet, jget]
    have h3 : geoSec (Json.obj (("software", Json.obj []) :: kvs)) =
        geoSec (Json.obj kvs) := by
      simp [geoSec, pyGet, jget]
    have h4 : softSec (Json.obj (("software", Json.obj []) :: kvs)) = ([], none) := by
      simp [softSec, pyGet, jget, softwareBlock, truthy]
    have h4b : softSec (Json.obj kvs) = ([], none) := by
      simp [softSec, pyGet, hf, softwareBlock, truthy]
    simp [extractService, h1, h2, h3, h4, h4b]

/-- Witness for C10 (amended): each part applied at a concrete payload with
the surrounding object empty. -/
theorem C10_empty_same_as_absent_witness :
    ((extract "1.2.3.4" (Json.obj [("Services", Json.arr [])])).1.tail =
       (extract "1.2.3.4" (Json.obj [])).1.tail ∧
     (extract "1.2.3.4" (Json.obj [("Services", Json.arr [])])).2 =
       (extract "1.2.3.4" (Json.obj [])).2) ∧
    ((extract "1.2.3.4" (Json.obj [("Leaks", Json.arr [])])).1.tail =
       (extract "1.2.3.4" (Json.obj [])).1.tail ∧
     (extract "1.2.3.4" (Json.obj [("Leaks", Json.arr [])])).2 =
       (extract "1.2.3.4" (Json.obj [])).2) ∧
    extractService "1.2.3.4" (Json.obj [("headers", Json.obj [])]) =
      extractService "1.2.3.4" (Json.obj []) ∧
    extractService "1.2.3.4" (Json.obj [("geoip", Json.obj [])]) =
      extractService "1.2.3.4" (Json.obj []) ∧
    extractService "1.2.3.4" (Json.obj [("software", Json.obj [])]) =
      extractService "1.2.3.4" (Json.obj []) :=
  ⟨C10_empty_same_as_absent.1 "1.2.3.4" [] rfl,
   C10_empty_same_as_absent.2.1 "1.2.3.4" [] rfl,
   C10_empty_same_as_absent.2.2.1 "1.2.3.4" [] rfl,
   C10_empty_same_as_absent.2.2.2.1 "1.2.3.4" [] rfl,
   C10_empty_same_as_absent.2.2.2.2 "1.2.3.4" [] rfl⟩

end Leakix
